import Mathlib

/-!
Verification of the `console.windows` module (Windows console support of the
`console` terminal library): shallow embedding of its color-translation,
capability-detection, palette-selection and console-state-query logic,
with theorems checking the specification's claims against the code.
-/

namespace ConsoleWindows

/-- winbase.h constant `ENABLE_VIRTUAL_TERMINAL_PROCESSING = 0x0004`. -/
def ENABLE_VIRTUAL_TERMINAL_PROCESSING : Nat := 0x0004

/-- `BUILD_ANSI_AVAIL = 10586` (Win10 TH2, Nov 2015). -/
def BUILD_ANSI_AVAIL : Nat := 10586

/-- The color targets accepted by `_mask_map` / `get_color_id`. -/
inductive Target where
  | foreground
  | fg
  | background
  | bg
deriving DecidableEq

/-- `_mask_map`: foreground/fg ↦ 0x000f, background/bg ↦ 0x00f0. -/
def mask_map : Target → Nat
  | .foreground => 0x000f
  | .fg => 0x000f
  | .background => 0x00f0
  | .bg => 0x00f0

/-- `_win_to_ansi_offset_map`: conhost color register → ANSI color index.
Applied in the source as `_win_to_ansi_offset_map.get(color_id, color_id)`,
so keys outside the table map to themselves (the `dict.get` default). -/
def win_to_ansi_offset_map : Nat → Nat
  | 0 => 0
  | 1 => 4
  | 2 => 2
  | 3 => 6
  | 4 => 1
  | 5 => 5
  | 6 => 3
  | 7 => 7
  | 8 => 8
  | 9 => 12
  | 10 => 10
  | 11 => 14
  | 12 => 9
  | 13 => 13
  | 14 => 11
  | 15 => 15
  | n => n

/-- The inverse direction of the same table (`ansi → conhost register`),
with the same out-of-range default. -/
def ansi_to_win_register : Nat → Nat
  | 0 => 0
  | 4 => 1
  | 2 => 2
  | 6 => 3
  | 1 => 4
  | 5 => 5
  | 3 => 6
  | 7 => 7
  | 8 => 8
  | 12 => 9
  | 10 => 10
  | 14 => 11
  | 9 => 12
  | 13 => 13
  | 11 => 14
  | 15 => 15
  | n => n

/-- `get_color_id(name)`: mask the packed console attribute word with the
target's nibble mask, divide by 16 for the background nibble, then translate
to ANSI order through `_win_to_ansi_offset_map`.  The packed attribute word
`wAttributes` (read from `GetConsoleScreenBufferInfo`) is the explicit
argument here. -/
def get_color_id (name : Target) (wAttributes : Nat) : Nat :=
  let color_id := wAttributes &&& mask_map name
  let color_id := if name = .background ∨ name = .bg then color_id / 16 else color_id
  win_to_ansi_offset_map color_id

/-- `get_position`: cursor coordinates are zero based; the function adds
one to each for compatibility. -/
def get_position (posX posY : Int) : Int × Int :=
  (posX + 1, posY + 1)

/-- Python's `str.partition(';')` restricted to the two components used:
`(FG, BG)` where `FG` is the part before the first `';'` and `BG` the part
after it (empty when no `';'` occurs). -/
def partitionSemi : List Char → List Char × List Char
  | [] => ([], [])
  | c :: rest =>
    if c = ';' then ([], rest)
    else
      let p := partitionSemi rest
      (c :: p.1, p.2)

/-- Python's lexicographic `<` on strings (code-point order). -/
def pyStrLt : List Char → List Char → Bool
  | [], [] => false
  | [], _ :: _ => true
  | _ :: _, [] => false
  | a :: as, b :: bs =>
    if a.val < b.val then true
    else if b.val < a.val then false
    else pyStrLt as bs

/-- Python truthiness of an optional environment-variable string:
unset or empty is falsy. -/
def env_truthy : Option String → Bool
  | none => false
  | some s => !s.toList.isEmpty

/-- `get_theme`: if `COLORFGBG` is set (truthy), split it at the first `';'`
and compare the background component lexically against the string `"8"`
(`theme = 'dark' if BG < '8' else 'light'`); otherwise fall back to the
console's background color id and classify `< 8` as dark. -/
def get_theme (colorfgbg : Option String) (wAttributes : Nat) : Option String :=
  if env_truthy colorfgbg then
    let s := (colorfgbg.getD "").toList
    let BG := (partitionSemi s).2
    some (if pyStrLt BG ['8'] then "dark" else "light")
  else
    let color_id := get_color_id .background wAttributes
    some (if color_id < 8 then "dark" else "light")

/-- The three 16-color palette tables from the `color_tables` module.
Modelled from the spec: the `color_tables` module is not part of the source
under scrutiny; its three tables (`xterm_palette4`, `cmd1709_palette4`,
`cmd_palette4`) are distinct static 16-entry RGB tables, represented here
as distinct tags since only their identity matters to the claims. -/
inductive PaletteTag where
  | xterm_palette4
  | cmd1709_palette4
  | cmd_palette4
deriving DecidableEq

/-- Per-stream console state seen by `enable_vt_processing`:
`mode` is `some m` when `GetConsoleMode` succeeds with mode `m`, `none`
when it fails; `setOk` is the truthiness of the `SetConsoleMode` result. -/
structure StreamState where
  mode : Option Nat
  setOk : Bool
deriving DecidableEq

/-- The environment and platform signals read by `detect_palette_support`
and its helpers: `env.TERM` (empty when unset), `env.COLORTERM`,
truthiness of `env.ANSICON` and `env.SSH_CLIENT`, the colorama-wrapper
check, `sys.getwindowsversion()[2]` (the build number), and the console
state of the stdout and stderr streams. -/
structure Signals where
  term : String
  colorterm : Option String
  ansicon : Bool
  sshClient : Bool
  coloramaInit : Bool
  winBuild : Nat
  stdoutS : StreamState
  stderrS : StreamState
deriving DecidableEq

/-- `is_ansi_capable`: Windows build number above `BUILD_ANSI_AVAIL`. -/
def is_ansi_capable (sig : Signals) : Bool :=
  decide (BUILD_ANSI_AVAIL < sig.winBuild)

/-- `enable_vt_processing`: for stdout then stderr, read the console mode
(breaking out of the loop when `GetConsoleMode` fails), and append either
the truthiness of `SetConsoleMode` (when the VT bit was not yet set) or
the truthy status `'Already Enabled'`.  Returns the list of collected
statuses; note that a `GetConsoleMode` failure appends nothing. -/
def enable_vt_processing (outS errS : StreamState) : List Bool :=
  match outS.mode with
  | none => []
  | some m =>
    let r1 := if m &&& ENABLE_VIRTUAL_TERMINAL_PROCESSING = 0 then outS.setOk else true
    match errS.mode with
    | none => [r1]
    | some m2 =>
      let r2 := if m2 &&& ENABLE_VIRTUAL_TERMINAL_PROCESSING = 0 then errS.setOk else true
      [r1, r2]

/-- List-of-char matching used to embed Python's `in` on strings:
does the needle occur at the head? -/
def beginsWith : List Char → List Char → Bool
  | [], _ => true
  | _ :: _, [] => false
  | a :: as, b :: bs => a = b && beginsWith as bs

/-- Python's `needle in hay` for strings, on the char lists. -/
def hasSub (needle : List Char) : List Char → Bool
  | [] => needle.isEmpty
  | c :: rest => beginsWith needle (c :: rest) || hasSub needle rest

/-- The guard of the first detection rule:
`is_ansi_capable() and all(enable_vt_processing())`. -/
def vt_cond (sig : Signals) : Bool :=
  is_ansi_capable sig && (enable_vt_processing sig.stdoutS sig.stderrS).all (fun r => r)

/-- The guard of the basic rule: `colorama_init or TERM.startswith('xterm')`. -/
def basic_cond (sig : Signals) : Bool :=
  sig.coloramaInit || beginsWith "xterm".toList sig.term.toList

/-- The guard of the extended upgrade: `ansicon or ('256color' in TERM)`. -/
def ext_cond (sig : Signals) : Bool :=
  sig.ansicon || hasSub "256color".toList sig.term.toList

/-- The guard of the truecolor upgrade:
`env.COLORTERM in ('truecolor', '24bit') or TERM == 'cygwin'`. -/
def tc_cond (sig : Signals) : Bool :=
  sig.colorterm = some "truecolor" || sig.colorterm = some "24bit"
    || sig.term = "cygwin"

/-- `_find_basic_palette(name)`: default is the xterm palette; over SSH it
stays the xterm fallback (label `'ssh (xterm)'`); otherwise builds above
16299 (Win10 FCU) get `cmd1709_palette4`, older ones `cmd_palette4`.
Returns `(name, pal_name, basic_palette)` with `name` passed through. -/
def find_basic_palette (sig : Signals) (name : Option String) :
    Option String × String × PaletteTag :=
  if sig.sshClient then
    (name, "ssh (xterm)", PaletteTag.xterm_palette4)
  else
    if 16299 < sig.winBuild then
      (name, "cmd_1709", PaletteTag.cmd1709_palette4)
    else
      (name, "cmd_legacy", PaletteTag.cmd_palette4)

/-- `detect_palette_support(basic_palette=None)`: the rule sequence.
If the VT rule fires the level is `'truecolor'` and the basic/extended
checks are skipped; otherwise the basic, extended and truecolor env rules
apply in order.  When a level was found and no explicit palette was given,
the platform palette is resolved through `_find_basic_palette`.
Returns the `(name, basic_palette)` pair the source returns. -/
def detect_palette_support (sig : Signals) (basic_palette : Option PaletteTag) :
    Option String × Option PaletteTag :=
  let name : Option String :=
    if vt_cond sig then
      some "truecolor"
    else
      let name : Option String := none
      let name := if basic_cond sig then some "basic" else name
      let name := if ext_cond sig then some "extended" else name
      let name := if tc_cond sig then some "truecolor" else name
      name
  if name.isSome && basic_palette.isNone then
    let r := find_basic_palette sig name
    (r.1, some r.2.2)
  else
    (name, basic_palette)

/-- Capability levels ordered by richness:
none < basic < extended < truecolor. -/
def levelRank : Option String → Nat
  | none => 0
  | some s =>
    if s = "basic" then 1
    else if s = "extended" then 2
    else if s = "truecolor" then 3
    else 0

/-- Level after rule 1 (the VT rule). -/
def step1 (sig : Signals) : Option String :=
  if vt_cond sig then some "truecolor" else none

/-- Level after rule 2 (the basic rule; skipped when rule 1 fired). -/
def step2 (sig : Signals) : Option String :=
  if vt_cond sig then step1 sig
  else if basic_cond sig then some "basic" else step1 sig

/-- Level after rule 3 (the extended upgrade; skipped when rule 1 fired). -/
def step3 (sig : Signals) : Option String :=
  if vt_cond sig then step2 sig
  else if ext_cond sig then some "extended" else step2 sig

/-- Level after rule 4 (the truecolor upgrade; skipped when rule 1 fired). -/
def step4 (sig : Signals) : Option String :=
  if vt_cond sig then step3 sig
  else if tc_cond sig then some "truecolor" else step3 sig

/-- Modelled from the spec: "enabling it succeeds on all relevant output
streams" — enabling succeeds on a stream when its console mode could be
read and, if the VT bit was not already set, `SetConsoleMode` succeeded. -/
def spec_enable_succeeded (s : StreamState) : Bool :=
  match s.mode with
  | none => false
  | some m =>
    if m &&& ENABLE_VIRTUAL_TERMINAL_PROCESSING = 0 then s.setOk else true

/-- A signal snapshot with no environment evidence, no platform VT support
(build not above `BUILD_ANSI_AVAIL`) and unreadable console modes. -/
def sig_no_signals : Signals :=
  { term := "", colorterm := none, ansicon := false, sshClient := false,
    coloramaInit := false, winBuild := 10586,
    stdoutS := { mode := none, setOk := false },
    stderrS := { mode := none, setOk := false } }

/-- A signal snapshot on an ANSI-capable build where `GetConsoleMode`
fails on stdout (so `enable_vt_processing` collects no status at all)
and `SetConsoleMode` would fail on stderr as well. -/
def sig_vt_getmode_fails : Signals :=
  { term := "", colorterm := none, ansicon := false, sshClient := false,
    coloramaInit := false, winBuild := 20000,
    stdoutS := { mode := none, setOk := false },
    stderrS := { mode := some 0, setOk := false } }

/-- A signal snapshot on an ANSI-capable build where VT processing is
enabled successfully on stdout and already enabled on stderr. -/
def sig_vt_ok : Signals :=
  { term := "", colorterm := none, ansicon := false, sshClient := false,
    coloramaInit := false, winBuild := 20000,
    stdoutS := { mode := some 0, setOk := true },
    stderrS := { mode := some 4, setOk := false } }

/-- A signal snapshot over SSH with signals that would otherwise select
the post-threshold platform palette. -/
def sig_ssh : Signals :=
  { term := "xterm-256color", colorterm := none, ansicon := true,
    sshClient := true, coloramaInit := false, winBuild := 20000,
    stdoutS := { mode := some 4, setOk := true },
    stderrS := { mode := some 4, setOk := true } }

/-- C1: the 16-entry color-order translation table maps {0..15} into
{0..15} and the inverse direction of the same table undoes it in both
orders, so the table is a bijection on {0..15} that is its own structural
inverse. -/
theorem win_ansi_translation_bijective :
    ∀ r : Fin 16,
      win_to_ansi_offset_map r.val < 16 ∧
      ansi_to_win_register r.val < 16 ∧
      ansi_to_win_register (win_to_ansi_offset_map r.val) = r.val ∧
      win_to_ansi_offset_map (ansi_to_win_register r.val) = r.val := by
  decide

/-- C7: `get_position` converts zero-based cursor coordinates to one-based
ones: `(0,0) ↦ (1,1)`, `(79,24) ↦ (80,25)`, and in general
`(x,y) ↦ (x+1, y+1)`. -/
theorem get_position_one_based :
    get_position 0 0 = (1, 1) ∧ get_position 79 24 = (80, 25) ∧
      ∀ x y : Int, get_position x y = (x + 1, y + 1) :=
  ⟨rfl, rfl, fun _ _ => rfl⟩

/-- C9: the color-order translation preserves the dark/light split — the
translated index is below 8 exactly when the register is below 8 — so the
fallback theme verdict computed from the translated background index
agrees with the classification of the untranslated register. -/
theorem win_ansi_translation_preserves_split :
    ∀ r : Fin 16,
      (win_to_ansi_offset_map r.val < 8 ↔ r.val < 8) ∧
      get_theme none (16 * r.val) =
        some (if r.val < 8 then "dark" else "light") := by
  decide

/-- C2 counterexample: the hint string `"0;15"` does NOT give the Light
verdict — the background component `"15"` sorts lexically below `"8"`
(`'1' < '8'`), so the code answers dark. -/
theorem theme_hint_0_15_not_light :
    ¬ get_theme (some "0;15") 0 = some "light" := by
  decide

/-- C2 amended: under the lexical comparison of the background component
against `"8"`, hint `"15;0"` gives Dark, hint `"0;15"` gives Dark
(because `"15" < "8"` lexically), and hint `"0;9"` gives Light. -/
theorem theme_hint_lexical_verdicts :
    get_theme (some "15;0") 0 = some "dark" ∧
    get_theme (some "0;15") 0 = some "dark" ∧
    get_theme (some "0;9") 0 = some "light" := by
  decide

/-- Auxiliary: when the separator does not occur, `partition` returns the
whole string as the first component and an empty third component. -/
theorem partitionSemi_no_sep :
    ∀ s : List Char, ';' ∉ s → partitionSemi s = (s, [])
  | [], _ => rfl
  | c :: rest, h => by
    have hc : ¬ c = ';' := fun he => h (he ▸ List.mem_cons_self c rest)
    have hr : ';' ∉ rest := fun hm => h (List.mem_cons_of_mem c hm)
    simp [partitionSemi, hc, partitionSemi_no_sep rest hr]

/-- C10: a non-empty hint with no `';'` separator still yields a definite
verdict: the background component parses as the empty string, which sorts
lexically below `"8"`, so the verdict is Dark. -/
theorem theme_hint_no_separator_dark (s : List Char) (h1 : s ≠ [])
    (h2 : ';' ∉ s) (w : Nat) :
    get_theme (some (String.mk s)) w = some "dark" := by
  match s, h1 with
  | c :: rest, _ =>
    simp [get_theme, env_truthy, String.toList,
      partitionSemi_no_sep _ h2, pyStrLt]

/-- C10 witness: the malformed hint `"15"` yields the Dark verdict. -/
theorem theme_hint_no_separator_dark_witness :
    get_theme (some (String.mk ['1', '5'])) 0 = some "dark" :=
  theme_hint_no_separator_dark ['1', '5'] (by decide) (by decide) 0

/-- C8: with no environment signals, no platform VT support and unreadable
console state, detection returns level `None` with palette `None`; but the
theme query does not return the absent verdict — with the zeroed console
attributes of a failed query it answers `'dark'`, contradicting its own
docstring (`None if no information`). -/
theorem no_signals_detection_none_theme_dark :
    detect_palette_support sig_no_signals none = (none, none) ∧
    get_theme none 0 = some "dark" ∧
    get_theme none 0 ≠ none := by
  decide

/-- C3: on an ANSI-capable build where `GetConsoleMode` fails on stdout,
`enable_vt_processing` breaks out with an empty status tuple, `all(())` is
vacuously true, and the VT rule sets `'truecolor'` although enabling
succeeded on no stream. -/
theorem vt_rule_fires_despite_enable_failure :
    enable_vt_processing sig_vt_getmode_fails.stdoutS
        sig_vt_getmode_fails.stderrS = [] ∧
    spec_enable_succeeded sig_vt_getmode_fails.stdoutS = false ∧
    spec_enable_succeeded sig_vt_getmode_fails.stderrS = false ∧
    detect_palette_support sig_vt_getmode_fails none =
      (some "truecolor", some PaletteTag.cmd1709_palette4) := by
  decide

/-- Auxiliary: `_find_basic_palette` passes the level name through
unchanged in every branch. -/
theorem find_basic_palette_fst (sig : Signals) (name : Option String) :
    (find_basic_palette sig name).1 = name := by
  unfold find_basic_palette
  split
  · rfl
  · split <;> rfl

/-- C4: within one detection pass the level never decreases across the
rule sequence — each rule replaces the current level with an equal or
higher one (ranked none < basic < extended < truecolor), the palette
resolution step leaves the level of the last rule unchanged, and once the
VT-capability check establishes truecolor the final level is truecolor. -/
theorem detect_level_monotone (sig : Signals) :
    levelRank (step1 sig) ≤ levelRank (step2 sig) ∧
    levelRank (step2 sig) ≤ levelRank (step3 sig) ∧
    levelRank (step3 sig) ≤ levelRank (step4 sig) ∧
    (detect_palette_support sig none).1 = step4 sig ∧
    (vt_cond sig = true →
      (detect_palette_support sig none).1 = some "truecolor") := by
  cases hvt : vt_cond sig <;> cases hb : basic_cond sig <;>
    cases he : ext_cond sig <;> cases htc : tc_cond sig <;>
      simp [detect_palette_support, step1, step2, step3, step4, levelRank,
        hvt, hb, he, htc, find_basic_palette_fst]

/-- C4 witness: on a configuration where the VT rule fires, the final
level is truecolor. -/
theorem detect_level_monotone_witness :
    (detect_palette_support sig_vt_ok none).1 = some "truecolor" :=
  (detect_level_monotone sig_vt_ok).2.2.2.2 (by decide)

/-- C5: with the SSH-session signal present the safe xterm fallback
palette is selected regardless of every other signal; with it absent the
post-threshold `cmd_1709` table is selected exactly when the build number
exceeds 16299, and the legacy `cmd` table exactly otherwise. -/
theorem find_basic_palette_selection (sig : Signals) (name : Option String) :
    (sig.sshClient = true →
      (find_basic_palette sig name).2.2 = PaletteTag.xterm_palette4) ∧
    (sig.sshClient = false →
      (((find_basic_palette sig name).2.2 = PaletteTag.cmd1709_palette4 ↔
          16299 < sig.winBuild) ∧
       ((find_basic_palette sig name).2.2 = PaletteTag.cmd_palette4 ↔
          ¬ 16299 < sig.winBuild))) := by
  constructor
  · intro hssh
    simp [find_basic_palette, hssh]
  · intro hssh
    by_cases hbuild : 16299 < sig.winBuild <;>
      simp [find_basic_palette, hssh, hbuild]

/-- C5 witness: over SSH, with wrapper/256-color signals present and a
post-threshold build, the xterm fallback is still selected. -/
theorem find_basic_palette_selection_witness :
    (find_basic_palette sig_ssh none).2.2 = PaletteTag.xterm_palette4 :=
  (find_basic_palette_selection sig_ssh none).1 (by decide)

/-- Auxiliary: masking with the low nibble is reduction modulo 16. -/
theorem and_15_eq_mod (v : Nat) : v &&& 15 = v % 16 := by
  rw [show (15 : Nat) = 2 ^ 4 - 1 by norm_num,
    Nat.and_pow_two_sub_one_eq_mod]

/-- Auxiliary: masking with the low byte is reduction modulo 256. -/
theorem and_255_eq_mod (v : Nat) : v &&& 255 = v % 256 := by
  rw [show (255 : Nat) = 2 ^ 8 - 1 by norm_num,
    Nat.and_pow_two_sub_one_eq_mod]

set_option maxRecDepth 4096 in
/-- Auxiliary: the background mask-and-divide of `get_color_id` extracts
bits 4–7, checked exhaustively below 256. -/
theorem mask240_div16_small :
    ∀ x : Fin 256, (x.val &&& 240) / 16 = x.val / 16 % 16 := by
  decide

/-- Auxiliary: the background mask-and-divide extracts bits 4–7. -/
theorem and_240_div16 (v : Nat) : (v &&& 240) / 16 = v / 16 % 16 := by
  have h1 : v &&& 240 = (v % 256) &&& 240 := by
    have h0 : (240 : Nat) = 255 &&& 240 := by decide
    calc v &&& 240 = v &&& (255 &&& 240) := by rw [← h0]
      _ = (v &&& 255) &&& 240 := (Nat.land_assoc v 255 240).symm
      _ = (v % 256) &&& 240 := by rw [and_255_eq_mod]
  have h2 : (v % 256 &&& 240) / 16 = (v % 256) / 16 % 16 :=
    mask240_div16_small ⟨v % 256, by omega⟩
  rw [h1, h2]
  omega

/-- C6: `get_color_id` for the foreground target depends only on the low
4 bits of the packed attribute value, and for the background target only
on bits 4–7 (for both spellings of each target). -/
theorem get_color_id_nibble_dependence (v w : Nat) :
    (v % 16 = w % 16 →
      get_color_id .foreground v = get_color_id .foreground w ∧
      get_color_id .fg v = get_color_id .fg w) ∧
    (v / 16 % 16 = w / 16 % 16 →
      get_color_id .background v = get_color_id .background w ∧
      get_color_id .bg v = get_color_id .bg w) := by
  constructor
  · intro h
    have hm : v &&& 15 = w &&& 15 := by
      rw [and_15_eq_mod, and_15_eq_mod, h]
    constructor
    · show win_to_ansi_offset_map (v &&& 15) =
        win_to_ansi_offset_map (w &&& 15)
      rw [hm]
    · show win_to_ansi_offset_map (v &&& 15) =
        win_to_ansi_offset_map (w &&& 15)
      rw [hm]
  · intro h
    have hm : (v &&& 240) / 16 = (w &&& 240) / 16 := by
      rw [and_240_div16, and_240_div16, h]
    constructor
    · show win_to_ansi_offset_map ((v &&& 240) / 16) =
        win_to_ansi_offset_map ((w &&& 240) / 16)
      rw [hm]
    · show win_to_ansi_offset_map ((v &&& 240) / 16) =
        win_to_ansi_offset_map ((w &&& 240) / 16)
      rw [hm]

/-- C6 witness: 23 and 7 share the low nibble, so their foreground color
agrees; 53 and 58 share bits 4–7, so their background color agrees. -/
theorem get_color_id_nibble_dependence_witness :
    get_color_id .foreground 23 = get_color_id .foreground 7 ∧
    get_color_id .background 53 = get_color_id .background 58 :=
  ⟨((get_color_id_nibble_dependence 23 7).1 (by decide)).1,
   ((get_color_id_nibble_dependence 53 58).2 (by decide)).1⟩

end ConsoleWindows
